import Mathlib

/-!
Verification development for the TTMS client-side resource caching layer
(CacheUtil.js). The JavaScript module is shallowly embedded: the module-level
mutable state (memory Map, localStorage namespace, in-flight Map, stats,
quota circuit-breaker flag) becomes an explicit `CacheState` record, and each
public operation becomes a pure state transformer. Asynchrony is resolved as
follows: under the JavaScript run-to-completion model, a single `cachedFetch`
call is an atomic state transformer parameterised by the outcomes of its
external interactions (the network response and the localStorage write
attempts); the in-flight deduplication behaviour across overlapping calls is
modelled separately by a small step system (`DedupSys`) whose steps are the
synchronous prefixes of the calls.

Payload values (parsed JSON) are never inspected by the cache logic, which only stores
and returns them; they are represented by `Nat` codes, with JavaScript
truthiness of a payload represented by the code being nonzero (0 stands for
the falsy JSON values such as null, false, 0 and the empty string).
-/

/-- The literal namespace marker every durable key begins with
(the CACHE_PREFIX constant of the source module). -/
def CACHE_PREFIX : String := "TTMS_cache_"

/-- A cached entry: `{ timestamp: Date.now(), data }`. -/
structure CacheEntry where
  timestamp : Nat
  data : Nat
deriving DecidableEq

/-- A value found in the durable store under a namespaced key: either a
string that `JSON.parse` rejects (externally corrupted), or a serialized
`CacheEntry`. Well-formed JSON that is not an entry object is outside the
model; the cache itself only ever stores `JSON.stringify` of entries. -/
inductive StoredVal
  | corrupt
  | entry (e : CacheEntry)
deriving DecidableEq

/-- Association-list lookup keyed by strings (models `Map.get` /
`localStorage.getItem`; absent key gives `none` as `getItem` gives null). -/
def mlookup {α : Type} : List (String × α) → String → Option α
  | [], _ => none
  | p :: rest, key => if key = p.1 then some p.2 else mlookup rest key

/-- Association-list update (models `Map.set` / `localStorage.setItem`):
the new pair replaces any pair with the same key. -/
def mset {α : Type} (m : List (String × α)) (key : String) (v : α) :
    List (String × α) :=
  (key, v) :: m.filter (fun p => p.1 != key)

/-- Association-list removal (models `Map.delete` / `localStorage.removeItem`). -/
def mdel {α : Type} (m : List (String × α)) (key : String) :
    List (String × α) :=
  m.filter (fun p => p.1 != key)

/-- The whole module-level mutable state of CacheUtil.js. -/
structure CacheState where
  memoryCache : List (String × CacheEntry)
  localStore : List (String × StoredVal)
  inflight : List String
  hits : Nat
  misses : Nat
  storageQuotaExceeded : Bool
deriving DecidableEq

/-- JavaScript truthiness of a payload code (see module comment: 0 stands
for the falsy JSON values). -/
def jsTruthy (v : Nat) : Bool := v != 0

/-- The static TTL table `TTL_CONFIG`, as a finite map from entity names to
milliseconds, mirroring the object literal entry by entry. The model treats
the object as a plain finite map; JavaScript prototype-chain inheritance on
exotic property names is outside the model. -/
def TTL_CONFIG (entity : String) : Option Nat :=
  if entity = "sesisemester" then some (24 * 60 * 60 * 1000)
  else if entity = "pelajar_subjek" then some (60 * 60 * 1000)
  else if entity = "jadual_subjek" then some (60 * 60 * 1000)
  else if entity = "jadual_ruang" then some (60 * 60 * 1000)
  else if entity = "ruang" then some (6 * 60 * 60 * 1000)
  else if entity = "subjek" then some (60 * 60 * 1000)
  else if entity = "subjek_seksyen" then some (60 * 60 * 1000)
  else if entity = "pensyarah" then some (6 * 60 * 60 * 1000)
  else if entity = "pelajar" then some (30 * 60 * 1000)
  else if entity = "subjek_pelajar" then some (30 * 60 * 1000)
  else if entity = "default" then some (30 * 60 * 1000)
  else none

/-- `getTTL(entity)`: the table entry of the given class, or else the
default entry of the table. Every value in the table is a nonzero number,
hence truthy, so the JavaScript or-else operator coincides with
`Option.getD` here. -/
def getTTL (entity : String) : Nat :=
  (TTL_CONFIG entity).getD ((TTL_CONFIG "default").getD 0)

/-- The TTL actually used by a call: `const ttl = customTTL || getTTL(entity)`.
`customTTL` defaults to null (`none`); a supplied 0 is falsy in JavaScript
and therefore also falls through to `getTTL`. -/
def effectiveTTL (customTTL : Option Nat) (entity : String) : Nat :=
  match customTTL with
  | some t => if t != 0 then t else getTTL entity
  | none => getTTL entity

/-- The character list of the literal pattern `entity=` from the regular
expression `/entity=([^&]+)/` in `getEntityFromUrl`. -/
def entityPat : List Char := "entity=".data

/-- One attempt of the regular expression `/entity=([^&]+)/` anchored at the
head of `l`: the literal `entity=` must match, then `[^&]+` greedily captures
one or more characters other than the ampersand. -/
def matchAt (l : List Char) : Option (List Char) :=
  if entityPat.isPrefixOf l then
    let cap := (l.drop 7).takeWhile (fun c => c != '&')
    if cap = [] then none else some cap
  else none

/-- The scan `String.prototype.match` performs: try the pattern at every
position left to right and return the first capture. -/
def scanEntity : List Char → Option (List Char)
  | [] => none
  | c :: rest =>
    match matchAt (c :: rest) with
    | some v => some v
    | none => scanEntity rest

/-- `getEntityFromUrl(url)`: `url.match(/entity=([^&]+)/)`, returning the
captured group when the pattern matches and the literal string `default`
otherwise. -/
def getEntityFromUrl (url : String) : String :=
  match scanEntity url.data with
  | some v => String.mk v
  | none => "default"

/-- JavaScript `ToInt32` (the `| 0` coercion and the implicit coercion of
`<<`): reduce modulo 2 to the power 32 into the signed range. -/
def toInt32 (n : Int) : Int := (n + 2 ^ 31) % 2 ^ 32 - 2 ^ 31

/-- One step of the key hash: `hash = ((hash << 5) - hash) + char; hash |= 0`.
`<<` truncates its operand to 32 bits before shifting within 32 bits. -/
def hashStep (h : Int) (c : Nat) : Int :=
  toInt32 (toInt32 (h * 32) - h + c)

/-- The rolling hash over the character codes of the URL. -/
def urlHash (url : String) : Int :=
  url.data.foldl (fun h c => hashStep h c.toNat) 0

/-- The base64 alphabet used by `btoa`. -/
def base64Alphabet : String :=
  "ABCDEFGHIJKLMNOPQRSTUVWXYZabcdefghijklmnopqrstuvwxyz0123456789+/"

/-- The base64 digit for a 6-bit value. -/
def b64char (n : Nat) : Char := base64Alphabet.data.getD n 'A'

/-- `btoa` on a list of byte values: encode 3-byte groups as 4 base64
digits, padding a final short group with `=`. -/
def btoa3 : List Nat → List Char
  | a :: b :: c :: rest =>
    b64char (a / 4) :: b64char (a % 4 * 16 + b / 16) ::
      b64char (b % 16 * 4 + c / 64) :: b64char (c % 64) :: btoa3 rest
  | [a, b] => [b64char (a / 4), b64char (a % 4 * 16 + b / 16), b64char (b % 16 * 4), '=']
  | [a] => [b64char (a / 4), b64char (a % 4 * 16), '=', '=']
  | [] => []

/-- The character class `[a-zA-Z0-9]` of the `replace` call in `getCacheKey`. -/
def isAlnum (c : Char) : Bool := c.isAlpha || c.isDigit

/-- `getCacheKey(url)`: prefix, 32-bit rolling hash, underscore, then the
first 40 alphanumeric characters of the base64 encoding of the first 100
characters of the URL. -/
def getCacheKey (url : String) : String :=
  CACHE_PREFIX ++ toString (urlHash url) ++ "_" ++
    String.mk ((btoa3 ((url.data.take 100).map Char.toNat)).filter isAlnum |>.take 40)

/-- `isCacheValid(cacheEntry, ttl)` at the instant `now`: a missing entry or
a falsy (zero) timestamp is never valid, otherwise valid while the age is
strictly below the TTL. -/
def isCacheValid (ce : Option CacheEntry) (ttl now : Nat) : Bool :=
  match ce with
  | none => false
  | some e => if e.timestamp = 0 then false else decide (now - e.timestamp < ttl)

/-- The outcome of one network round trip as the cache observes it:
the fetch rejects (network failure), or a body arrives whose `JSON.parse`
either fails (`malformed`) or yields a payload. -/
inductive NetOutcome
  | netFail
  | malformed
  | ok (v : Nat)
deriving DecidableEq

/-- The two failure kinds a caller can receive: the rejection of `fetch`
itself, or the distinct `Error("Invalid JSON response from TTMS")` thrown
on a parse failure. -/
inductive FetchError
  | network
  | parse
deriving DecidableEq

/-- What a `cachedFetch` call hands back: a resolved payload, a rejection of
one of the two kinds, or the pre-existing in-flight promise for the key
(whose eventual value is produced by the call that registered it). -/
inductive CallResult
  | ok (v : Nat)
  | error (e : FetchError)
  | joined
deriving DecidableEq

/-- The outcome of one `localStorage.setItem` attempt: success, a
capacity error (`QuotaExceededError` name or code 22), or any other error. -/
inductive WriteOutcome
  | ok
  | quotaErr
  | otherErr
deriving DecidableEq

/-- The options object of `cachedFetch`, with the source defaults. -/
structure FetchOptions where
  forceRefresh : Bool := false
  skipCache : Bool := false
  customTTL : Option Nat := none
  staleWhileRevalidate : Bool := false
deriving DecidableEq

/-- The observable outcome of one atomic `cachedFetch` run: the settled
result, the final module state, whether this call itself issued a network
request, and whether it launched a stale-while-revalidate background
refresh (to be performed later by `swrRefresh`). -/
structure CallOut where
  result : CallResult
  state : CacheState
  fetchIssued : Bool
  refreshLaunched : Bool
deriving DecidableEq

/-- `String.prototype.startsWith`, computed on the character lists (the
builtin `String.startsWith` is byte-position based and not reducible by
the kernel; this is the same predicate). -/
def strStartsWith (s pre : String) : Bool := pre.data.isPrefixOf s.data

/-- `clearOldCache()` on the durable store at instant `now`, minus the
returned count: every namespaced key whose value is unparseable or whose
entry is older than 24 hours is removed (collect-then-remove on an
association list is a filter). -/
def clearOldCacheStore (store : List (String × StoredVal)) (now : Nat) :
    List (String × StoredVal) :=
  store.filter (fun p =>
    !(strStartsWith p.1 CACHE_PREFIX &&
      (match p.2 with
       | .corrupt => true
       | .entry e => decide (now - e.timestamp > 24 * 60 * 60 * 1000))))

/-- The store block of the network path (source lines 196 to 223): put the
new entry in the memory cache, then, unless the circuit breaker is set,
attempt the durable write; on a capacity error run `clearOldCache` and retry
once, and if the retry fails in any way set `storageQuotaExceeded`. Any
other first failure is logged and swallowed. `tNet` is `Date.now()` during
this continuation; `w1`, `w2` are the outcomes of the two possible
`setItem` attempts. -/
def storeToCache (st : CacheState) (key : String) (e : CacheEntry)
    (tNet : Nat) (w1 w2 : WriteOutcome) : CacheState :=
  let st1 := { st with memoryCache := mset st.memoryCache key e }
  if st1.storageQuotaExceeded then st1
  else
    match w1 with
    | .ok => { st1 with localStore := mset st1.localStore key (.entry e) }
    | .quotaErr =>
      let cleared := clearOldCacheStore st1.localStore tNet
      match w2 with
      | .ok => { st1 with localStore := mset cleared key (.entry e) }
      | _ => { st1 with localStore := cleared, storageQuotaExceeded := true }
    | .otherErr => st1

/-- The cache-miss tail of `cachedFetch` (source lines 178 to 253):
`stats.misses++`, run the fetch promise, and settle. On success the entry is
stored through `storeToCache`; on a rejection of either kind the catch block
tries the durable store and returns its data regardless of staleness - an
unparseable or absent stored value rethrows the original error. The finally
block deletes the in-flight ticket for the key unconditionally; the
transient `inflight.set` before the await is only observable across
overlapping calls and is treated by `DedupSys` below. -/
def networkPhase (st : CacheState) (key : String) (tNet : Nat)
    (net : NetOutcome) (w1 w2 : WriteOutcome) : CallOut :=
  let st1 := { st with misses := st.misses + 1 }
  match net with
  | .ok v =>
    let e : CacheEntry := ⟨tNet, v⟩
    let st2 := storeToCache st1 key e tNet w1 w2
    ⟨.ok v, { st2 with inflight := st2.inflight.erase key }, true, false⟩
  | .netFail =>
    match mlookup st1.localStore key with
    | some (.entry e) =>
      ⟨.ok e.data, { st1 with inflight := st1.inflight.erase key }, true, false⟩
    | _ =>
      ⟨.error .network, { st1 with inflight := st1.inflight.erase key }, true, false⟩
  | .malformed =>
    match mlookup st1.localStore key with
    | some (.entry e) =>
      ⟨.ok e.data, { st1 with inflight := st1.inflight.erase key }, true, false⟩
    | _ =>
      ⟨.error .parse, { st1 with inflight := st1.inflight.erase key }, true, false⟩

/-- The localStorage read step of `cachedFetch` (source lines 128 to 176):
a valid durable entry is a hit and is promoted into the memory cache; a
stale but truthy entry under `staleWhileRevalidate` is a hit, is served
immediately, and registers a background refresh ticket unless one is
already in flight; an unparseable value is caught and falls through, like
an absent or invalid one, to the network phase. -/
def localReadPhase (st : CacheState) (key : String) (opts : FetchOptions)
    (ttl now tNet : Nat) (net : NetOutcome) (w1 w2 : WriteOutcome) : CallOut :=
  match mlookup st.localStore key with
  | some (.entry ce) =>
    if isCacheValid (some ce) ttl now then
      ⟨.ok ce.data,
        { st with hits := st.hits + 1, memoryCache := mset st.memoryCache key ce },
        false, false⟩
    else if opts.staleWhileRevalidate && jsTruthy ce.data then
      if st.inflight.contains key then
        ⟨.ok ce.data, { st with hits := st.hits + 1 }, false, false⟩
      else
        ⟨.ok ce.data,
          { st with hits := st.hits + 1, inflight := key :: st.inflight },
          false, true⟩
    else networkPhase st key tNet net w1 w2
  | some .corrupt => networkPhase st key tNet net w1 w2
  | none => networkPhase st key tNet net w1 w2

/-- `cachedFetch(url, options)` as one atomic state transformer. `now` is
`Date.now()` during the synchronous prefix (cache validity checks), `tNet`
is `Date.now()` after the network round trip (entry timestamps and the
retention check of `clearOldCache`); `net`, `w1`, `w2` are the outcomes of
the external interactions, unused on paths that do not perform them. -/
def cachedFetch (st : CacheState) (url : String) (opts : FetchOptions)
    (now tNet : Nat) (net : NetOutcome) (w1 w2 : WriteOutcome) : CallOut :=
  if opts.skipCache then
    match net with
    | .netFail => ⟨.error .network, st, true, false⟩
    | .malformed => ⟨.error .parse, st, true, false⟩
    | .ok v => ⟨.ok v, st, true, false⟩
  else
    let cacheKey := getCacheKey url
    let ttl := effectiveTTL opts.customTTL (getEntityFromUrl url)
    if !opts.skipCache && !opts.forceRefresh && st.inflight.contains cacheKey then
      ⟨.joined, st, false, false⟩
    else if !opts.forceRefresh then
      match mlookup st.memoryCache cacheKey with
      | some me =>
        if isCacheValid (some me) ttl now then
          ⟨.ok me.data, { st with hits := st.hits + 1 }, false, false⟩
        else localReadPhase st cacheKey opts ttl now tNet net w1 w2
      | none => localReadPhase st cacheKey opts ttl now tNet net w1 w2
    else networkPhase st cacheKey tNet net w1 w2

/-- The stale-while-revalidate background refresh launched by the branch at
source lines 149 to 164, run when its promise settles. On a successful
fetch and parse the new entry is written to the memory cache and - with no
look at the quota circuit breaker - a durable `setItem` is attempted whose
failure is ignored (`writeOk` tells whether it succeeds); any fetch or
parse failure resolves the promise with the stale data. The finally block
removes the ticket. -/
def swrRefresh (st : CacheState) (key : String) (stale : CacheEntry)
    (tNet : Nat) (net : NetOutcome) (writeOk : Bool) : CallResult × CacheState :=
  match net with
  | .ok v =>
    let newEntry : CacheEntry := ⟨tNet, v⟩
    let st1 := { st with memoryCache := mset st.memoryCache key newEntry }
    let st2 :=
      if writeOk then { st1 with localStore := mset st1.localStore key (.entry newEntry) }
      else st1
    (.ok v, { st2 with inflight := st2.inflight.erase key })
  | _ => (.ok stale.data, { st with inflight := st.inflight.erase key })

/-- The collection predicate of `clearCache(entityPrefix)` (source lines
278 to 293): a namespaced key is collected in every branch - with no
entity filter, and with one regardless of whether the stored value parses
(the source comment reads: since we encode the URL we cannot filter by
entity, so clear all for now). -/
def clearMarks (ep : Option String) (p : String × StoredVal) : Bool :=
  if strStartsWith p.1 CACHE_PREFIX then
    match ep with
    | none => true
    | some _ =>
      match p.2 with
      | .corrupt => true
      | .entry _ => true
  else false

/-- `clearCache(entityPrefix)` on the durable store: collect the keys to
remove, remove each with `removeItem`, and return the count. The memory
cache and the rest of the module state are not touched by the source
function. -/
def clearCacheStore (ep : Option String) (store : List (String × StoredVal)) :
    List (String × StoredVal) × Nat :=
  let keysToRemove := (store.filter (clearMarks ep)).map Prod.fst
  (keysToRemove.foldl (fun s k => mdel s k) store, keysToRemove.length)

/-- Per-key view of the in-flight registry across overlapping calls for one
cache key, justified by the JavaScript run-to-completion model: the span of
`cachedFetch` from entry to the `inflight.set` after creating the fetch
promise (source lines 113 to 115 and 178 to 231) contains no await and runs
atomically. `ticket` is `inflight.has(cacheKey)`; `fetches` counts network
requests issued for the key; `outstanding` counts those not yet settled;
`waiting` counts callers attached to the pending in-flight promise. -/
structure DedupSys where
  ticket : Bool
  fetches : Nat
  outstanding : Nat
  waiting : Nat
deriving DecidableEq

/-- The registry with no activity for the key. -/
def initSys : DedupSys := ⟨false, 0, 0, 0⟩

/-- The synchronous prefix of a `cachedFetch` call with default options on
an empty cache: with a ticket present the call returns the in-flight
promise (source line 114) and attaches to it; otherwise it misses, issues
the fetch, registers the ticket (source line 230) and awaits the same
promise. -/
def startDefault (s : DedupSys) : DedupSys :=
  if s.ticket then { s with waiting := s.waiting + 1 }
  else ⟨true, s.fetches + 1, s.outstanding + 1, s.waiting + 1⟩

/-- The synchronous prefix of a `cachedFetch` call with `forceRefresh`: the
in-flight check and the registration are both skipped (their guards require
`!forceRefresh`), so the call issues its own network request without
attaching to or creating a ticket. -/
def startForce (s : DedupSys) : DedupSys :=
  { s with fetches := s.fetches + 1, outstanding := s.outstanding + 1 }

/-- `n` further default-option starts. -/
def startsN : Nat → DedupSys → DedupSys
  | 0, s => s
  | n + 1, s => startsN n (startDefault s)

/-- The in-flight promise settles: the finally block deletes the ticket,
the operation is no longer outstanding, and every attached caller is
delivered the settled result (the pair returns how many callers that is). -/
def settle (s : DedupSys) : DedupSys × Nat :=
  ({ s with ticket := false, outstanding := s.outstanding - 1, waiting := 0 }, s.waiting)

/-- The amended TTL rule, following the amended wording of claim C7: a
nonzero caller-supplied TTL takes precedence; a null or zero one falls
through to the static table, whose absent classes resolve to the default
30 minutes. -/
def ttlSpecAmended (customTTL : Option Nat) (entity : String) : Nat :=
  match customTTL with
  | some t => if t ≠ 0 then t else (TTL_CONFIG entity).getD 1800000
  | none => (TTL_CONFIG entity).getD 1800000

set_option maxRecDepth 4000

/-- C7 counterexample: with a memory entry five minutes old and a
caller-supplied `customTTL` of 0, the claim predicts an effective TTL of 0,
under which the entry is invalid and a network fetch must occur; the code
treats 0 as falsy, resolves the TTL to the default 30 minutes, serves the
entry from memory and issues no fetch. -/
theorem c7_counterexample :
    effectiveTTL (some 0) (getEntityFromUrl "u") = 1800000 ∧
    (cachedFetch ⟨[("TTMS_cache_117_dQ", ⟨1000, 42⟩)], [], [], 0, 0, false⟩ "u"
      { customTTL := some 0 } 301000 0 .netFail .ok .ok).fetchIssued = false ∧
    (cachedFetch ⟨[("TTMS_cache_117_dQ", ⟨1000, 42⟩)], [], [], 0, 0, false⟩ "u"
      { customTTL := some 0 } 301000 0 .netFail .ok .ok).result = .ok 42 := by
  refine ⟨by decide, by decide, by decide⟩

/-- C7 amended: the effective TTL is the caller-supplied `customTTL`
whenever a nonzero one is supplied (a supplied 0 is falsy and treated as
absent); otherwise it is the TTL table entry of the entity class, falling
back to the default 30 minutes when the class is absent from the table. -/
theorem c7_amended (customTTL : Option Nat) (entity : String) :
    effectiveTTL customTTL entity = ttlSpecAmended customTTL entity := by
  rcases customTTL with _ | t
  · rfl
  · have hd : TTL_CONFIG "default" = some 1800000 := by decide
    by_cases ht : t = 0 <;> simp [effectiveTTL, ttlSpecAmended, getTTL, ht, hd]

/-- C6: with `skipCache` the call performs a direct fetch, returns the
parsed body or the corresponding failure, and leaves the entire module
state - both tiers, the in-flight registry and the statistics - exactly as
it was, regardless of the prior state and of the other options. -/
theorem c6_skipCache_touches_nothing (st : CacheState) (url : String)
    (force swr : Bool) (customTTL : Option Nat) (now tNet : Nat)
    (net : NetOutcome) (w1 w2 : WriteOutcome) :
    (cachedFetch st url ⟨force, true, customTTL, swr⟩ now tNet net w1 w2).state = st ∧
    (cachedFetch st url ⟨force, true, customTTL, swr⟩ now tNet net w1 w2).result =
      (match net with
       | .netFail => .error .network
       | .malformed => .error .parse
       | .ok v => .ok v) := by
  cases net <;> exact ⟨rfl, rfl⟩

theorem startsN_of_ticket (n : Nat) (f o w : Nat) :
    startsN n ⟨true, f, o, w⟩ = ⟨true, f, o, w + n⟩ := by
  induction n generalizing w with
  | zero => rfl
  | succ m ih =>
    show startsN m (startDefault ⟨true, f, o, w⟩) = _
    rw [show startDefault ⟨true, f, o, w⟩ = ⟨true, f, o, w + 1⟩ from rfl, ih]
    congr 1
    omega

/-- C4 counterexample: with a default-option call already holding the
in-flight ticket for the key, a `forceRefresh` call for the same key skips
both the registry check and the registration and issues its own network
request, so two network operations for the key are outstanding at once;
the sequential model confirms that the forced call does not join the
ticket it ignores. -/
theorem c4_counterexample :
    (startForce (startDefault initSys)).outstanding = 2 ∧
    (cachedFetch ⟨[], [], ["TTMS_cache_117_dQ"], 0, 0, false⟩ "u"
      { forceRefresh := true } 1 2 (.ok 9) .ok .ok).fetchIssued = true := by
  exact ⟨by decide, by decide⟩

/-- C4 amended: for calls that are routed through the in-flight registry -
default options - the guarantee holds: any number of concurrent calls for
one key while the operation is pending issue exactly one network fetch,
keep exactly one operation outstanding, and on settlement every one of the
attached callers is delivered the settled result; a `forceRefresh` call,
however, bypasses the registry and can add a second outstanding operation. -/
theorem c4_amended (n : Nat) (h : 1 ≤ n) :
    (startsN n initSys).fetches = 1 ∧
    (startsN n initSys).outstanding = 1 ∧
    (settle (startsN n initSys)).2 = n := by
  obtain ⟨m, rfl⟩ : ∃ m, n = m + 1 := ⟨n - 1, by omega⟩
  have h1 : startsN (m + 1) initSys = startsN m ⟨true, 1, 1, 1⟩ := rfl
  rw [h1, startsN_of_ticket]
  refine ⟨rfl, rfl, ?_⟩
  show 1 + m = m + 1
  omega

theorem c4_amended_witness :
    (startsN 50 initSys).fetches = 1 ∧
    (startsN 50 initSys).outstanding = 1 ∧
    (settle (startsN 50 initSys)).2 = 50 :=
  c4_amended 50 (by decide)

theorem takeWhile_until_amp (v r : List Char) (h : ∀ c ∈ v, c ≠ '&') :
    (v ++ '&' :: r).takeWhile (fun c => c != '&') = v := by
  induction v with
  | nil => simp [List.takeWhile_cons]
  | cons a as ih =>
    have ha : a ≠ '&' := h a (List.mem_cons_self a as)
    simp only [List.cons_append, List.takeWhile_cons]
    rw [if_pos (by simp [ha])]
    rw [ih (fun c hc => h c (List.mem_cons_of_mem a hc))]

theorem matchAt_at_pat (v r : List Char) (hv : v ≠ []) (h : ∀ c ∈ v, c ≠ '&') :
    matchAt (entityPat ++ (v ++ '&' :: r)) = some v := by
  unfold matchAt
  rw [if_pos (List.isPrefixOf_iff_prefix.mpr (List.prefix_append _ _))]
  have hlen : entityPat.length = 7 := by decide
  have hd : (entityPat ++ (v ++ '&' :: r)).drop 7 = v ++ '&' :: r := by
    rw [← hlen, List.drop_left]
  simp only [hd, takeWhile_until_amp v r h]
  simp [hv]

theorem matchAt_cons_of_ne (c : Char) (l : List Char) (h : c ≠ 'e') :
    matchAt (c :: l) = none := by
  unfold matchAt
  rw [if_neg]
  intro hp
  have hpre := List.isPrefixOf_iff_prefix.mp hp
  obtain ⟨t, ht⟩ := hpre
  have h2 : 'e' :: ("ntity=".data ++ t) = c :: l := by
    rw [show entityPat = 'e' :: "ntity=".data from rfl] at ht
    simpa using ht
  exact h ((List.cons.injEq _ _ _ _).mp h2).1.symm

theorem scanEntity_skip (c : Char) (l : List Char) (h : matchAt (c :: l) = none) :
    scanEntity (c :: l) = scanEntity l := by
  simp [scanEntity, h]

theorem scanEntity_at_pat (v r : List Char) (hv : v ≠ []) (h : ∀ c ∈ v, c ≠ '&') :
    scanEntity (entityPat ++ (v ++ '&' :: r)) = some v := by
  have hform : entityPat ++ (v ++ '&' :: r) = 'e' :: ("ntity=".data ++ (v ++ '&' :: r)) := rfl
  rw [hform]
  rw [show scanEntity ('e' :: ("ntity=".data ++ (v ++ '&' :: r))) =
      (match matchAt ('e' :: ("ntity=".data ++ (v ++ '&' :: r))) with
       | some v2 => some v2
       | none => scanEntity ("ntity=".data ++ (v ++ '&' :: r))) from rfl]
  rw [show ('e' :: ("ntity=".data ++ (v ++ '&' :: r))) = entityPat ++ (v ++ '&' :: r) from rfl]
  rw [matchAt_at_pat v r hv h]

theorem scanEntity_none_of_pat_absent (l : List Char) (h : ¬ entityPat <:+: l) :
    scanEntity l = none := by
  induction l with
  | nil => rfl
  | cons c rest ih =>
    have hm : matchAt (c :: rest) = none := by
      unfold matchAt
      rw [if_neg]
      intro hp
      exact h ((List.isPrefixOf_iff_prefix.mp hp).isInfix)
    rw [scanEntity_skip c rest hm]
    exact ih (fun h2 => h (List.infix_cons h2))

/-- C8 counterexample: for a URL whose `entity` parameter has the value
`zzz`, which is not one of the entity classes of the TTL table,
`getEntityFromUrl` returns `zzz` itself, not the sentinel class
`default` the claim requires for unrecognized values. -/
theorem c8_counterexample :
    getEntityFromUrl "a?entity=zzz" = "zzz" ∧
    getEntityFromUrl "a?entity=zzz" ≠ "default" ∧
    TTL_CONFIG "zzz" = none := by
  exact ⟨by decide, by decide, by decide⟩

/-- C8 amended: `getEntityFromUrl` returns the first capture of the pattern
`entity=([^&]+)` whenever the URL contains one - whatever the captured
value, recognized by the TTL table or not - and returns the sentinel class
`default` exactly when the pattern does not match; in particular a URL
without the literal `entity=` always yields `default`. The fallback for
unrecognized classes happens later, in TTL resolution, not here. -/
theorem c8_amended :
    (∀ (v r : List Char), v ≠ [] → (∀ c ∈ v, c ≠ '&') →
      getEntityFromUrl (String.mk ("x?entity=".data ++ (v ++ '&' :: r))) = String.mk v) ∧
    (∀ url : String, ¬ entityPat <:+: url.data → getEntityFromUrl url = "default") := by
  constructor
  · intro v r hv h
    unfold getEntityFromUrl
    rw [show (String.mk ("x?entity=".data ++ (v ++ '&' :: r))).data =
        'x' :: '?' :: (entityPat ++ (v ++ '&' :: r)) from rfl]
    rw [scanEntity_skip 'x' _ (matchAt_cons_of_ne _ _ (by decide))]
    rw [scanEntity_skip '?' _ (matchAt_cons_of_ne _ _ (by decide))]
    rw [scanEntity_at_pat v r hv h]
  · intro url h
    unfold getEntityFromUrl
    rw [scanEntity_none_of_pat_absent url.data h]

theorem c8_amended_witness :
    getEntityFromUrl (String.mk ("x?entity=".data ++ ("zzz".data ++ '&' :: "y=1".data)))
      = String.mk "zzz".data ∧
    getEntityFromUrl "plain" = "default" :=
  ⟨c8_amended.1 "zzz".data "y=1".data (by decide) (by decide),
   c8_amended.2 "plain" (by decide)⟩

/-- C1: evaluation at the failing input. With default options, an empty
memory tier, and a stale durable entry with payload 5 for the key of the
URL `u`, a response body that is not valid JSON makes `cachedFetch`
resolve with the stale payload 5 instead of propagating the parse
failure: the catch block that the source annotates as the network-error
fallback also catches the distinct parse error. With no durable entry the
parse failure does reach the caller as the distinct parse kind, and in
both runs neither tier gains an entry. -/
theorem c1_parse_failure_eval :
    (cachedFetch ⟨[], [("TTMS_cache_117_dQ", .entry ⟨1, 5⟩)], [], 0, 0, false⟩
      "u" {} 100000000 100000001 .malformed .ok .ok).result = .ok 5 ∧
    (cachedFetch ⟨[], [("TTMS_cache_117_dQ", .entry ⟨1, 5⟩)], [], 0, 0, false⟩
      "u" {} 100000000 100000001 .malformed .ok .ok).state.localStore =
      [("TTMS_cache_117_dQ", .entry ⟨1, 5⟩)] ∧
    (cachedFetch ⟨[], [("TTMS_cache_117_dQ", .entry ⟨1, 5⟩)], [], 0, 0, false⟩
      "u" {} 100000000 100000001 .malformed .ok .ok).state.memoryCache = [] ∧
    (cachedFetch ⟨[], [], [], 0, 0, false⟩
      "u" {} 100000000 100000001 .malformed .ok .ok).result = .error .parse ∧
    (cachedFetch ⟨[], [], [], 0, 0, false⟩
      "u" {} 100000000 100000001 .netFail .ok .ok).result = .error .network := by
  exact ⟨by decide, by decide, by decide, by decide, by decide⟩

theorem storeToCache_of_flag (st : CacheState) (key : String) (e : CacheEntry)
    (tNet : Nat) (w1 w2 : WriteOutcome) (h : st.storageQuotaExceeded = true) :
    storeToCache st key e tNet w1 w2 = { st with memoryCache := mset st.memoryCache key e } := by
  unfold storeToCache
  simp [h]

theorem networkPhase_of_flag (st : CacheState) (key : String) (tNet : Nat)
    (net : NetOutcome) (w1 w2 : WriteOutcome) (h : st.storageQuotaExceeded = true) :
    (networkPhase st key tNet net w1 w2).state.localStore = st.localStore ∧
    (networkPhase st key tNet net w1 w2).state.storageQuotaExceeded = true := by
  rcases net with _ | _ | v <;> unfold networkPhase <;> dsimp only
  · split <;> exact ⟨rfl, h⟩
  · split <;> exact ⟨rfl, h⟩
  · rw [storeToCache_of_flag { st with misses := st.misses + 1 } key ⟨tNet, v⟩ tNet w1 w2 h]
    exact ⟨rfl, h⟩

/-- C2 counterexample: a state in which the circuit breaker is already set
and a stale durable entry exists; a `staleWhileRevalidate` call serves the
stale payload and launches the background refresh, and when that refresh
settles successfully its unguarded `setItem` succeeds, so the durable
localStorage store receives a fresh entry although the breaker is set and
remains set. -/
theorem c2_counterexample :
    (⟨[], [("TTMS_cache_117_dQ", .entry ⟨1, 5⟩)], [], 0, 0, true⟩ : CacheState).storageQuotaExceeded
      = true ∧
    (cachedFetch ⟨[], [("TTMS_cache_117_dQ", .entry ⟨1, 5⟩)], [], 0, 0, true⟩ "u"
      { staleWhileRevalidate := true } 100000000 100000001 (.ok 1) .ok .ok).refreshLaunched
      = true ∧
    mlookup (swrRefresh
        (cachedFetch ⟨[], [("TTMS_cache_117_dQ", .entry ⟨1, 5⟩)], [], 0, 0, true⟩ "u"
          { staleWhileRevalidate := true } 100000000 100000001 (.ok 1) .ok .ok).state
        "TTMS_cache_117_dQ" ⟨1, 5⟩ 100000002 (.ok 7) true).2.localStore
      "TTMS_cache_117_dQ" = some (.entry ⟨100000002, 7⟩) ∧
    (swrRefresh
        (cachedFetch ⟨[], [("TTMS_cache_117_dQ", .entry ⟨1, 5⟩)], [], 0, 0, true⟩ "u"
          { staleWhileRevalidate := true } 100000000 100000001 (.ok 1) .ok .ok).state
        "TTMS_cache_117_dQ" ⟨1, 5⟩ 100000002 (.ok 7) true).2.storageQuotaExceeded = true := by
  exact ⟨rfl, by decide, by decide, by decide⟩

/-- C2 amended: once the circuit breaker is set it is never cleared, and no
`cachedFetch` call itself ever writes to the durable localStorage store
again - every path of the call leaves the durable tier untouched; the
stale-while-revalidate background refresh, however, does not consult the
breaker and still attempts a durable write when it settles, so a later
successful fetch completed by that refresh may reach the durable tier. -/
theorem c2_amended (st : CacheState) (url : String) (opts : FetchOptions)
    (now tNet : Nat) (net : NetOutcome) (w1 w2 : WriteOutcome)
    (h : st.storageQuotaExceeded = true) :
    (cachedFetch st url opts now tNet net w1 w2).state.localStore = st.localStore ∧
    (cachedFetch st url opts now tNet net w1 w2).state.storageQuotaExceeded = true := by
  unfold cachedFetch localReadPhase
  dsimp only
  repeat' split
  all_goals
    first
    | exact ⟨rfl, h⟩
    | exact networkPhase_of_flag st _ tNet net w1 w2 h

theorem c2_amended_witness :
    (cachedFetch ⟨[], [], [], 0, 0, true⟩ "u" {} 1 2 (.ok 3) .ok .ok).state.localStore
      = (⟨[], [], [], 0, 0, true⟩ : CacheState).localStore ∧
    (cachedFetch ⟨[], [], [], 0, 0, true⟩ "u" {} 1 2 (.ok 3) .ok .ok).state.storageQuotaExceeded
      = true :=
  c2_amended ⟨[], [], [], 0, 0, true⟩ "u" {} 1 2 (.ok 3) .ok .ok rfl

/-- C3 counterexample: with an in-flight ticket registered for the key of
the URL `u`, a default-option call joins it (which is what deduplication
through the registry means), while a `forceRefresh` call for the same URL
in the same state ignores the ticket and issues its own network fetch -
it is not deduplicated through the in-flight registry. -/
theorem c3_counterexample :
    (cachedFetch ⟨[], [], ["TTMS_cache_117_dQ"], 0, 0, false⟩ "u"
      {} 1 2 (.ok 9) .ok .ok).result = .joined ∧
    (cachedFetch ⟨[], [], ["TTMS_cache_117_dQ"], 0, 0, false⟩ "u"
      { forceRefresh := true } 1 2 (.ok 9) .ok .ok).fetchIssued = true ∧
    (cachedFetch ⟨[], [], ["TTMS_cache_117_dQ"], 0, 0, false⟩ "u"
      { forceRefresh := true } 1 2 (.ok 9) .ok .ok).result ≠ .joined := by
  exact ⟨by decide, by decide, by decide⟩

/-- C3 amended: a `forceRefresh` call (with `skipCache` false) skips the
cache-read steps and always issues a network fetch, bypassing the
in-flight registry in both directions - it neither returns an existing
in-flight promise nor registers its own; on success, with the circuit
breaker unset and the durable write succeeding, it writes the fetched
entry through both the ephemeral and the durable tier and returns the
parsed payload, counting one miss and no hit, whatever entries already
exist for the key. -/
theorem c3_amended (st : CacheState) (url : String) (customTTL : Option Nat)
    (swr : Bool) (now tNet : Nat) (v : Nat) (w2 : WriteOutcome)
    (h : st.storageQuotaExceeded = false) :
    (cachedFetch st url ⟨true, false, customTTL, swr⟩ now tNet (.ok v) .ok w2).result = .ok v ∧
    (cachedFetch st url ⟨true, false, customTTL, swr⟩ now tNet (.ok v) .ok w2).fetchIssued
      = true ∧
    (cachedFetch st url ⟨true, false, customTTL, swr⟩ now tNet (.ok v) .ok w2).state.memoryCache
      = mset st.memoryCache (getCacheKey url) ⟨tNet, v⟩ ∧
    (cachedFetch st url ⟨true, false, customTTL, swr⟩ now tNet (.ok v) .ok w2).state.localStore
      = mset st.localStore (getCacheKey url) (.entry ⟨tNet, v⟩) ∧
    (cachedFetch st url ⟨true, false, customTTL, swr⟩ now tNet (.ok v) .ok w2).state.misses
      = st.misses + 1 ∧
    (cachedFetch st url ⟨true, false, customTTL, swr⟩ now tNet (.ok v) .ok w2).state.hits
      = st.hits := by
  unfold cachedFetch networkPhase storeToCache
  dsimp only
  simp [h]

theorem c3_amended_witness :
    (cachedFetch ⟨[], [], [], 0, 0, false⟩ "u" ⟨true, false, none, false⟩ 1 2 (.ok 9) .ok .ok).result
      = .ok 9 ∧
    (cachedFetch ⟨[], [], [], 0, 0, false⟩ "u" ⟨true, false, none, false⟩ 1 2 (.ok 9) .ok .ok).fetchIssued
      = true ∧
    (cachedFetch ⟨[], [], [], 0, 0, false⟩ "u" ⟨true, false, none, false⟩ 1 2 (.ok 9) .ok .ok).state.memoryCache
      = mset [] (getCacheKey "u") ⟨2, 9⟩ ∧
    (cachedFetch ⟨[], [], [], 0, 0, false⟩ "u" ⟨true, false, none, false⟩ 1 2 (.ok 9) .ok .ok).state.localStore
      = mset [] (getCacheKey "u") (.entry ⟨2, 9⟩) ∧
    (cachedFetch ⟨[], [], [], 0, 0, false⟩ "u" ⟨true, false, none, false⟩ 1 2 (.ok 9) .ok .ok).state.misses
      = 0 + 1 ∧
    (cachedFetch ⟨[], [], [], 0, 0, false⟩ "u" ⟨true, false, none, false⟩ 1 2 (.ok 9) .ok .ok).state.hits
      = 0 :=
  c3_amended ⟨[], [], [], 0, 0, false⟩ "u" none false 1 2 9 .ok rfl

/-- C5: the quota-handling contract of the durable write, confirmed. On a
first capacity failure the write path runs the age-based eviction - after
which no namespaced entry older than 24 hours remains (the hypothesis pair
names one surviving namespaced entry and concludes it is recent) - and
retries exactly once: the final durable store is the evicted store with
the new entry exactly when the retry succeeds; the circuit breaker ends up
set exactly when the retry fails, of whatever kind the second failure is;
and a successful fetch resolves with its payload no matter how the
durable writes fail - no durable-write failure reaches the caller. -/
theorem c5_quota_guard (st : CacheState) (key : String) (e : CacheEntry)
    (tNet : Nat) (w2 : WriteOutcome) (v : Nat) (w1p w2p : WriteOutcome)
    (k : String) (e2 : CacheEntry)
    (hflag : st.storageQuotaExceeded = false)
    (hmem : (k, StoredVal.entry e2) ∈ clearOldCacheStore st.localStore tNet)
    (hpre : strStartsWith k CACHE_PREFIX = true) :
    (storeToCache st key e tNet .quotaErr w2).localStore =
      (if w2 = .ok then mset (clearOldCacheStore st.localStore tNet) key (.entry e)
       else clearOldCacheStore st.localStore tNet) ∧
    (storeToCache st key e tNet .quotaErr w2).storageQuotaExceeded = (w2 != .ok) ∧
    tNet - e2.timestamp ≤ 24 * 60 * 60 * 1000 ∧
    (networkPhase st key tNet (.ok v) w1p w2p).result = .ok v := by
  refine ⟨?_, ?_, ?_, ?_⟩
  · unfold storeToCache
    dsimp only
    rw [if_neg (by simp [hflag])]
    rcases w2 with _ | _ | _ <;> simp
  · unfold storeToCache
    dsimp only
    rw [if_neg (by simp [hflag])]
    rcases w2 with _ | _ | _ <;> simp [hflag]
  · have h2 := (List.mem_filter.mp hmem).2
    simp [hpre] at h2
    omega
  · rfl

theorem c5_quota_guard_witness :
    (storeToCache ⟨[], [("TTMS_cache_old", .entry ⟨0, 1⟩), ("TTMS_cache_new", .entry ⟨99999999, 3⟩),
        ("foreign", .entry ⟨0, 2⟩)], [], 0, 0, false⟩
      "TTMS_cache_k" ⟨100000000, 8⟩ 100000000 .quotaErr .quotaErr).localStore =
      (if (WriteOutcome.quotaErr : WriteOutcome) = .ok then
        mset (clearOldCacheStore [("TTMS_cache_old", .entry ⟨0, 1⟩),
          ("TTMS_cache_new", .entry ⟨99999999, 3⟩), ("foreign", .entry ⟨0, 2⟩)] 100000000)
          "TTMS_cache_k" (.entry ⟨100000000, 8⟩)
       else clearOldCacheStore [("TTMS_cache_old", .entry ⟨0, 1⟩),
          ("TTMS_cache_new", .entry ⟨99999999, 3⟩), ("foreign", .entry ⟨0, 2⟩)] 100000000) ∧
    (storeToCache ⟨[], [("TTMS_cache_old", .entry ⟨0, 1⟩), ("TTMS_cache_new", .entry ⟨99999999, 3⟩),
        ("foreign", .entry ⟨0, 2⟩)], [], 0, 0, false⟩
      "TTMS_cache_k" ⟨100000000, 8⟩ 100000000 .quotaErr .quotaErr).storageQuotaExceeded =
      ((WriteOutcome.quotaErr : WriteOutcome) != .ok) ∧
    100000000 - (99999999 : Nat) ≤ 24 * 60 * 60 * 1000 ∧
    (networkPhase ⟨[], [("TTMS_cache_old", .entry ⟨0, 1⟩), ("TTMS_cache_new", .entry ⟨99999999, 3⟩),
        ("foreign", .entry ⟨0, 2⟩)], [], 0, 0, false⟩
      "TTMS_cache_k" 100000000 (.ok 8) .quotaErr .quotaErr).result = .ok 8 :=
  c5_quota_guard ⟨[], [("TTMS_cache_old", .entry ⟨0, 1⟩), ("TTMS_cache_new", .entry ⟨99999999, 3⟩),
      ("foreign", .entry ⟨0, 2⟩)], [], 0, 0, false⟩
    "TTMS_cache_k" ⟨100000000, 8⟩ 100000000 .quotaErr 8 .quotaErr .quotaErr
    "TTMS_cache_new" ⟨99999999, 3⟩ rfl (by decide) (by decide)

/-- C9: network-failure fallback, confirmed. For any call without
`skipCache` that actually reached the network (`fetchIssued` rules out the
cache-served and joined paths) and whose fetch failed, the call resolves
with the data of the durable entry stored under the key of the URL with no
staleness check at all, and the network failure reaches the caller exactly
when no parseable durable entry exists for the key. -/
theorem c9_network_failure_fallback (st : CacheState) (url : String)
    (opts : FetchOptions) (now tNet : Nat) (w1 w2 : WriteOutcome)
    (hsc : opts.skipCache = false)
    (hfi : (cachedFetch st url opts now tNet .netFail w1 w2).fetchIssued = true) :
    (cachedFetch st url opts now tNet .netFail w1 w2).result =
      (match mlookup st.localStore (getCacheKey url) with
       | some (.entry e) => .ok e.data
       | _ => .error .network) := by
  unfold cachedFetch localReadPhase at hfi ⊢
  rw [hsc] at hfi ⊢
  dsimp only at hfi ⊢
  repeat' split at hfi
  all_goals simp_all
  all_goals unfold networkPhase
  all_goals dsimp only
  all_goals split <;> simp_all

theorem c9_network_failure_fallback_witness :
    (cachedFetch ⟨[], [], [], 0, 0, false⟩ "u" {} 1 2 .netFail .ok .ok).result =
      (match mlookup ([] : List (String × StoredVal)) (getCacheKey "u") with
       | some (.entry e) => .ok e.data
       | _ => .error .network) :=
  c9_network_failure_fallback ⟨[], [], [], 0, 0, false⟩ "u" {} 1 2 .ok .ok rfl (by decide)

theorem foldl_mdel_eq_filter {α : Type} (ks : List String) (store : List (String × α)) :
    ks.foldl (fun s k => mdel s k) store = store.filter (fun p => !(ks.contains p.1)) := by
  induction ks generalizing store with
  | nil => simp
  | cons k ks ih =>
    simp only [List.foldl_cons]
    rw [ih]
    unfold mdel
    rw [List.filter_filter]
    apply List.filter_congr
    intro p _
    rw [List.contains_cons, Bool.not_or, bne, Bool.and_comm]

theorem clearMarks_eq (ep : Option String) (p : String × StoredVal) :
    clearMarks ep p = strStartsWith p.1 CACHE_PREFIX := by
  unfold clearMarks
  split
  · rename_i hs
    rw [hs]
    cases ep with
    | none => rfl
    | some e => cases p.2 <;> rfl
  · rename_i hs
    simp at hs
    rw [hs]

theorem clearCacheStore_fst (ep : Option String) (store : List (String × StoredVal)) :
    (clearCacheStore ep store).1 =
      store.filter (fun p => !(strStartsWith p.1 CACHE_PREFIX)) := by
  unfold clearCacheStore
  dsimp only
  rw [foldl_mdel_eq_filter]
  apply List.filter_congr
  intro p hp
  by_cases hs : strStartsWith p.1 CACHE_PREFIX = true
  · have hmem : p.1 ∈ (store.filter (clearMarks ep)).map Prod.fst :=
      List.mem_map.mpr ⟨p, List.mem_filter.mpr ⟨hp, by rw [clearMarks_eq]; exact hs⟩, rfl⟩
    have hc : ((store.filter (clearMarks ep)).map Prod.fst).contains p.1 = true :=
      List.elem_iff.mpr hmem
    rw [hc, hs]
  · have hb : strStartsWith p.1 CACHE_PREFIX = false := by
      revert hs
      cases strStartsWith p.1 CACHE_PREFIX <;> simp
    have hnm : p.1 ∉ (store.filter (clearMarks ep)).map Prod.fst := by
      intro hmem
      obtain ⟨q, hq, hq1⟩ := List.mem_map.mp hmem
      have h2 := (List.mem_filter.mp hq).2
      rw [clearMarks_eq, hq1, hb] at h2
      exact Bool.false_ne_true h2
    have hc : ((store.filter (clearMarks ep)).map Prod.fst).contains p.1 = false := by
      cases h : ((store.filter (clearMarks ep)).map Prod.fst).contains p.1
      · rfl
      · exact absurd (List.elem_iff.mp h) hnm
    rw [hc, hb]

theorem clearCacheStore_snd (ep : Option String) (store : List (String × StoredVal)) :
    (clearCacheStore ep store).2 =
      (store.filter (fun p => strStartsWith p.1 CACHE_PREFIX)).length := by
  unfold clearCacheStore
  dsimp only
  rw [List.length_map]
  congr 1
  apply List.filter_congr
  intro p _
  exact clearMarks_eq ep p

/-- C10: `clearCache` removes exactly the namespaced entries of the durable
localStorage tier and returns their count, leaving every other durable key
and the whole rest of the module state alone - in particular the ephemeral
memory tier, which the source function never touches. Consequently a key
whose entry was promoted into the memory tier and is still within its TTL
is served from memory by a `cachedFetch` issued immediately after
`clearCache` ran: the call returns the cached payload, records a hit,
issues no network fetch and changes nothing but the hit counter. -/
theorem c10_clearCache_memory_untouched (ep : Option String)
    (store : List (String × StoredVal)) (st : CacheState) (url : String)
    (customTTL : Option Nat) (swr : Bool) (v t now tNet : Nat)
    (net : NetOutcome) (w1 w2 : WriteOutcome)
    (hmem : mlookup st.memoryCache (getCacheKey url) = some ⟨t, v⟩)
    (ht : t ≠ 0)
    (hfresh : now - t < effectiveTTL customTTL (getEntityFromUrl url))
    (hinf : st.inflight.contains (getCacheKey url) = false) :
    (clearCacheStore ep store).1 =
      store.filter (fun p => !(strStartsWith p.1 CACHE_PREFIX)) ∧
    (clearCacheStore ep store).2 =
      (store.filter (fun p => strStartsWith p.1 CACHE_PREFIX)).length ∧
    cachedFetch { st with localStore := (clearCacheStore none st.localStore).1 } url
        ⟨false, false, customTTL, swr⟩ now tNet net w1 w2 =
      ⟨.ok v,
        { st with localStore := (clearCacheStore none st.localStore).1, hits := st.hits + 1 },
        false, false⟩ := by
  refine ⟨clearCacheStore_fst ep store, clearCacheStore_snd ep store, ?_⟩
  unfold cachedFetch
  dsimp only
  rw [hinf]
  simp only [Bool.and_false, Bool.false_and]
  rw [hmem]
  dsimp only
  rw [show isCacheValid (some ⟨t, v⟩) (effectiveTTL customTTL (getEntityFromUrl url)) now = true by
    unfold isCacheValid
    dsimp only
    rw [if_neg ht]
    exact decide_eq_true hfresh]
  rfl

theorem c10_clearCache_memory_untouched_witness :
    (clearCacheStore none [("TTMS_cache_117_dQ", .entry ⟨1000, 42⟩), ("other", .corrupt)]).1 =
      [("TTMS_cache_117_dQ", StoredVal.entry ⟨1000, 42⟩), ("other", StoredVal.corrupt)].filter
        (fun p => !(strStartsWith p.1 CACHE_PREFIX)) ∧
    (clearCacheStore none [("TTMS_cache_117_dQ", .entry ⟨1000, 42⟩), ("other", .corrupt)]).2 =
      ([("TTMS_cache_117_dQ", StoredVal.entry ⟨1000, 42⟩), ("other", StoredVal.corrupt)].filter
        (fun p => strStartsWith p.1 CACHE_PREFIX)).length ∧
    cachedFetch
        { (⟨[("TTMS_cache_117_dQ", ⟨1000, 42⟩)], [("TTMS_cache_117_dQ", .entry ⟨1000, 42⟩)],
            [], 0, 0, false⟩ : CacheState) with
          localStore :=
            (clearCacheStore none [("TTMS_cache_117_dQ", .entry ⟨1000, 42⟩)]).1 }
        "u" ⟨false, false, none, false⟩ 2000 0 .netFail .ok .ok =
      ⟨.ok 42,
        { (⟨[("TTMS_cache_117_dQ", ⟨1000, 42⟩)], [("TTMS_cache_117_dQ", .entry ⟨1000, 42⟩)],
            [], 0, 0, false⟩ : CacheState) with
          localStore :=
            (clearCacheStore none [("TTMS_cache_117_dQ", .entry ⟨1000, 42⟩)]).1,
          hits := 0 + 1 },
        false, false⟩ :=
  c10_clearCache_memory_untouched none
    [("TTMS_cache_117_dQ", .entry ⟨1000, 42⟩), ("other", .corrupt)]
    ⟨[("TTMS_cache_117_dQ", ⟨1000, 42⟩)], [("TTMS_cache_117_dQ", .entry ⟨1000, 42⟩)],
      [], 0, 0, false⟩
    "u" none false 42 1000 2000 0 .netFail .ok .ok
    (by decide) (by decide) (by decide) (by decide)
